import Mathlib

/-!
Verification of the backtest engine of the stock_quant_tool repository.

The definitions below are a shallow embedding of
`supabase/functions/backtest-engine/index.ts` (and, for the chip-metric
estimator, `supabase/functions/stock-api-real/index.ts`).  JavaScript
numbers are modelled as exact rationals (`ℚ`); `Math.floor` is `Rat.floor`;
`Array.prototype.sort` (stable in ECMAScript) is modelled by the stable
`List.insertionSort`; `new Map(entries)` lookup is last-entry-wins.
The end-of-run metrics use a small model of IEEE special values (`JsNum`)
where the code can divide by zero.
-/

attribute [local semireducible] Rat.mul Rat.inv Rat.add Rat.sub Rat.ofScientific

namespace StockQuant

/-- Calendar date, as carried by the `YYYY-MM-DD` strings of the code. -/
structure DateD where
  year : ℤ
  month : ℤ
  day : ℤ
deriving DecidableEq, Inhabited

/-- Days since the Unix epoch of a Gregorian calendar date; this is what
`new Date("YYYY-MM-DD").getTime()` divides down to (date-only strings parse
to UTC midnight). Standard civil-from-days algorithm, floor divisions. -/
def civilDays (dt : DateD) : ℤ :=
  let y := if dt.month ≤ 2 then dt.year - 1 else dt.year
  let era := Int.fdiv y 400
  let yoe := y - era * 400
  let mp := if 2 < dt.month then dt.month - 3 else dt.month + 9
  let doy := Int.fdiv (153 * mp + 2) 5 + dt.day - 1
  let doe := yoe * 365 + Int.fdiv yoe 4 - Int.fdiv yoe 100 + doy
  era * 146097 + doe - 719468

/-- Embedding of `new Date(dateStr).getTime()` in milliseconds. -/
def epochMillis (dt : DateD) : ℤ := civilDays dt * 86400000

/-- Embedding of `calculateHoldingDays` (backtest-engine/index.ts:524-528):
`Math.floor((current.getTime() - entry.getTime()) / (1000*60*60*24))`. -/
def calculateHoldingDays (entryDate currentDate : DateD) : ℤ :=
  Rat.floor (((epochMillis currentDate - epochMillis entryDate : ℤ) : ℚ) / (1000 * 60 * 60 * 24))

/-- Embedding of `generateRealisticChipMetrics` (backtest-engine/index.ts:5-68).
Returns the pair (chip concentration, profit ratio). -/
def generateRealisticChipMetrics (pctChg turnoverRate volumeRatio : ℚ) : ℚ × ℚ :=
  let baseConcentration : ℚ := 1/2
  let optimalTurnover : ℚ := 8
  let turnoverFactor0 := 1 - |turnoverRate - optimalTurnover| / 20
  let turnoverFactor := max (3/10) (min (12/10) turnoverFactor0)
  let volumeFactor := min (13/10) (max (7/10) (8/10 + volumeRatio / 10))
  let priceFactor : ℚ :=
    if 2 ≤ pctChg ∧ pctChg ≤ 8 then 11/10
    else if 9 < pctChg then 12/10
    else if pctChg < -3 then 9/10
    else 1
  let concentration0 := baseConcentration * turnoverFactor * volumeFactor * priceFactor
  let concentration := max (2/10) (min (95/100) concentration0)
  let profitRatio0 : ℚ := 1/2
  let profitRatio1 :=
    if 0 < pctChg then
      if pctChg ≤ 3 then profitRatio0 + pctChg / 20
      else if pctChg ≤ 7 then profitRatio0 + 15/100 + (pctChg - 3) / 40
      else profitRatio0 + 25/100 + min (15/100) ((pctChg - 7) / 60)
    else profitRatio0 + max (-(3/10)) (pctChg / 15)
  let profitRatio2 :=
    if 10 < turnoverRate then profitRatio1 - min (1/10) ((turnoverRate - 10) / 100)
    else profitRatio1
  let profitRatio3 :=
    if 3/2 < volumeRatio ∧ 2 < pctChg then profitRatio2 + min (5/100) ((volumeRatio - 3/2) / 20)
    else profitRatio2
  (concentration, max (1/10) (min (9/10) profitRatio3))

/-- Embedding of `calculateImprovedChipConcentration` (stock-api-real/index.ts:6-46).
The JS source reads the three inputs with `|| default`; on numbers that
replaces `0` by the default (`0 || d = d`), which the first two `let`s model.
Returns the pair (chip concentration, profit ratio). -/
def calculateImprovedChipConcentration (turnoverRateIn volumeRatioIn pctChg : ℚ) : ℚ × ℚ :=
  let turnoverRate := if turnoverRateIn = 0 then 5 else turnoverRateIn
  let volumeRatio := if volumeRatioIn = 0 then 1 else volumeRatioIn
  let baseConcentration : ℚ := 1/2
  let optimalTurnover : ℚ := 8
  let turnoverFactor0 := 1 - |turnoverRate - optimalTurnover| / 20
  let turnoverFactor := max (3/10) (min (12/10) turnoverFactor0)
  let volumeFactor := min (13/10) (max (7/10) (8/10 + volumeRatio / 10))
  let priceFactor : ℚ :=
    if 2 ≤ pctChg ∧ pctChg ≤ 8 then 11/10
    else if 9 < pctChg then 12/10
    else if pctChg < -3 then 9/10
    else 1
  let concentration0 := baseConcentration * turnoverFactor * volumeFactor * priceFactor
  let concentration := max (2/10) (min (95/100) concentration0)
  let profitRatio1 : ℚ :=
    if 0 < pctChg then 1/2 + min (3/10) (pctChg / 30)
    else 1/2 + max (-(3/10)) (pctChg / 20)
  (concentration, max (1/10) (min (9/10) profitRatio1))

/-- Embedding of `interface StockData` (backtest-engine/index.ts:89-100); one instrument's
daily bar. `price` is the day's close. The `trade_date` field is dropped:
runs below already group bars per trading day. -/
structure StockData where
  stock_code : String
  stock_name : String
  price : ℚ
  pct_chg : ℚ
  turnover_rate : ℚ
  volume_ratio : ℚ
  market_cap : ℚ
  chip_concentration : ℚ
  profit_ratio : ℚ
deriving DecidableEq, Inhabited

/-- Embedding of `interface Position` (backtest-engine/index.ts:102-111). -/
structure Position where
  stock_code : String
  stock_name : String
  entry_date : DateD
  entry_price : ℚ
  quantity : ℤ
  entry_amount : ℚ
  entry_reason : String
  holding_days : ℤ
deriving DecidableEq, Inhabited

inductive TradeAction where
  | buy
  | sell
deriving DecidableEq, Inhabited

/-- Embedding of `interface TradeRecord` (backtest-engine/index.ts:113-127); the random
`trade_id` is dropped. -/
structure TradeRecord where
  stock_code : String
  stock_name : String
  action : TradeAction
  price : ℚ
  quantity : ℤ
  amount : ℚ
  trade_date : DateD
  trade_reason : String
  signal_strength : ℚ
  profit_loss : Option ℚ
  cumulative_return : ℚ
  portfolio_value : ℚ
deriving DecidableEq, Inhabited

/-- The record pushed by `recordDailyPerformance` (backtest-engine/index.ts:494-505). -/
structure DailyPerformance where
  trade_date : DateD
  portfolio_value : ℚ
  daily_return : ℚ
  cumulative_return : ℚ
  benchmark_return : ℚ
  drawdown : ℚ
  positions_count : ℕ
  cash_balance : ℚ
  market_exposure : ℚ
deriving DecidableEq, Inhabited

/-- Embedding of `config.strategyParams` (backtest-engine/index.ts:74-86). -/
structure StrategyParams where
  maxMarketCap : ℚ
  minTurnoverRate : ℚ
  minVolumeRatio : ℚ
  minDailyGain : ℚ
  maxStockPrice : ℚ
  chipConcentrationThreshold : ℚ
  profitRatioThreshold : ℚ
  maxPositions : ℕ
  stopLoss : ℚ
  takeProfit : ℚ
  holdingDaysMin : ℤ
  holdingDaysMax : ℤ
deriving DecidableEq, Inhabited

/-- Embedding of `interface BacktestConfig` (backtest-engine/index.ts:70-87); the date
range only drives mock-data generation and is dropped. -/
structure BacktestConfig where
  initialCapital : ℚ
  strategyParams : StrategyParams
deriving DecidableEq, Inhabited

/-- The engine's mutable fields: `portfolio` (cash, positions, totalValue),
`trades` and `dailyPerformance` (backtest-engine/index.ts:133-140). -/
structure EngineState where
  cash : ℚ
  positions : List Position
  totalValue : ℚ
  trades : List TradeRecord
  dailyPerformance : List DailyPerformance
deriving DecidableEq, Inhabited

/-- Embedding of `calculateStockScore` (backtest-engine/index.ts:344-365). -/
def calculateStockScore (stock : StockData) : ℚ :=
  let s1 := min (stock.pct_chg * 2) 20
  let s2 : ℚ := if 2 < stock.volume_ratio then 15 else if 3/2 < stock.volume_ratio then 10 else 0
  let s3 : ℚ := if 5 < stock.turnover_rate ∧ stock.turnover_rate < 15 then 10 else 0
  let s4 := stock.chip_concentration * 20
  let s5 : ℚ := if 6/10 < stock.profit_ratio then 15 else if 1/2 < stock.profit_ratio then 10 else 0
  s1 + s2 + s3 + s4 + s5

/-- The hard-filter predicate of `screenStocks` (backtest-engine/index.ts:321-334):
the early-return chain of the `filter` callback. -/
def passesFilters (params : StrategyParams) (positions : List Position) (stock : StockData) : Bool :=
  if params.maxStockPrice < stock.price then false
  else if params.maxMarketCap < stock.market_cap then false
  else if stock.turnover_rate < params.minTurnoverRate then false
  else if stock.volume_ratio < params.minVolumeRatio then false
  else if stock.pct_chg < params.minDailyGain then false
  else if stock.chip_concentration < params.chipConcentrationThreshold then false
  else if stock.profit_ratio < params.profitRatioThreshold then false
  else if positions.any (fun p => p.stock_code == stock.stock_code) then false
  else true

/-- The order produced by `.sort((a, b) => scoreB - scoreA)`: a stays before
b when score a ≥ score b. -/
def scoreDescOrder (a b : StockData) : Prop :=
  calculateStockScore b ≤ calculateStockScore a

instance : DecidableRel scoreDescOrder :=
  fun a b => inferInstanceAs (Decidable (calculateStockScore b ≤ calculateStockScore a))

/-- Embedding of `screenStocks` (backtest-engine/index.ts:318-341): hard filters, then the
stable ECMAScript sort by descending composite score (stable sort modelled by
the stable `List.insertionSort`). -/
def screenStocks (cfg : BacktestConfig) (positions : List Position) (dayData : List StockData) : List StockData :=
  List.insertionSort scoreDescOrder (dayData.filter (passesFilters cfg.strategyParams positions))

/-- The `new Map(dayData.map(d => [d.stock_code, d]))` lookups of
`checkExitSignals` and `updatePortfolioValue`: last entry wins. -/
def lookupData (dayData : List StockData) (code : String) : Option StockData :=
  dayData.foldl (fun acc d => if d.stock_code == code then some d else acc) none

/-- The exit decision of `checkExitSignals` (backtest-engine/index.ts:282-308):
the `shouldSell`/`sellReason` if-else chain for one position, first match wins. -/
def exitReason (cfg : BacktestConfig) (currentDate : DateD) (position : Position) (currentData : StockData) : Option String :=
  let currentPrice := currentData.price
  let returnRate := (currentPrice - position.entry_price) / position.entry_price
  let holdingDays := calculateHoldingDays position.entry_date currentDate
  if returnRate ≤ -cfg.strategyParams.stopLoss / 100 then some "达到止损线"
  else if cfg.strategyParams.takeProfit / 100 ≤ returnRate then some "达到止盈目标"
  else if cfg.strategyParams.holdingDaysMax ≤ holdingDays then some "达到最大持仓天数"
  else if currentData.pct_chg < -5 ∧ currentData.volume_ratio < 1/2 then some "技术面恶化"
  else none

/-- Embedding of `calculateCumulativeReturn` (backtest-engine/index.ts:509-511). -/
def calculateCumulativeReturn (cfg : BacktestConfig) (st : EngineState) : ℚ :=
  (st.totalValue - cfg.initialCapital) / cfg.initialCapital

/-- The trade record pushed by `executeSellOrder` (backtest-engine/index.ts:440-454). -/
def mkSellTrade (cfg : BacktestConfig) (position : Position) (currentPrice : ℚ) (currentDate : DateD) (reason : String) (st : EngineState) : TradeRecord :=
  let amount := currentPrice * position.quantity
  let commission := amount * (3/10000)
  let netAmount := amount - commission
  { stock_code := position.stock_code
    stock_name := position.stock_name
    action := TradeAction.sell
    price := currentPrice
    quantity := position.quantity
    amount := amount
    trade_date := currentDate
    trade_reason := reason
    signal_strength := 1/2
    profit_loss := some (netAmount - position.entry_amount)
    cumulative_return := calculateCumulativeReturn cfg st
    portfolio_value := st.totalValue }

/-- Embedding of `executeSellOrder` (backtest-engine/index.ts:430-459): credit the net
proceeds and push one sell record (removal from `positions` is done by the
caller's `splice`, i.e. by `checkExitSignals` below). -/
def executeSellOrder (cfg : BacktestConfig) (position : Position) (currentPrice : ℚ) (currentDate : DateD) (reason : String) (st : EngineState) : EngineState :=
  let amount := currentPrice * position.quantity
  let commission := amount * (3/10000)
  let netAmount := amount - commission
  { st with
    cash := st.cash + netAmount
    trades := st.trades ++ [mkSellTrade cfg position currentPrice currentDate reason st] }

/-- Embedding of `checkExitSignals` (backtest-engine/index.ts:273-315): the JS loop walks
`positions` from the last index down to 0, selling and splicing matches, so
sells happen in reverse position order (the `foldr`) and surviving positions
keep their relative order (the `filter`). A position with no bar that day is
skipped (`continue`). -/
def checkExitSignals (cfg : BacktestConfig) (currentDate : DateD) (dayData : List StockData) (st : EngineState) : EngineState :=
  let afterSells := st.positions.foldr (fun position acc =>
    match lookupData dayData position.stock_code with
    | none => acc
    | some currentData =>
      match exitReason cfg currentDate position currentData with
      | none => acc
      | some reason => executeSellOrder cfg position currentData.price currentDate reason acc) st
  { afterSells with
    positions := st.positions.filter (fun position =>
      match lookupData dayData position.stock_code with
      | none => true
      | some currentData => (exitReason cfg currentDate position currentData).isNone) }

/-- Embedding of `generateBuyReason` (backtest-engine/index.ts:462-472); `join('+') || default`. -/
def generateBuyReason (stock : StockData) : String :=
  let reasons :=
    (if 5 < stock.pct_chg then ["强势上涨"] else []) ++
    (if 2 < stock.volume_ratio then ["放量突破"] else []) ++
    (if 7/10 < stock.chip_concentration then ["筹码集中"] else []) ++
    (if 6/10 < stock.profit_ratio then ["获利盘丰厚"] else []) ++
    (if 8 < stock.turnover_rate then ["活跃换手"] else [])
  if reasons.isEmpty then "符合选股条件" else String.intercalate "+" reasons

/-- The trade record pushed by `executeBuyOrder` (backtest-engine/index.ts:408-421). -/
def mkBuyTrade (cfg : BacktestConfig) (stock : StockData) (quantity : ℤ) (tradeDate : DateD) (st : EngineState) : TradeRecord :=
  { stock_code := stock.stock_code
    stock_name := stock.stock_name
    action := TradeAction.buy
    price := stock.price
    quantity := quantity
    amount := stock.price * quantity
    trade_date := tradeDate
    trade_reason := generateBuyReason stock
    signal_strength := calculateStockScore stock / 100
    profit_loss := none
    cumulative_return := calculateCumulativeReturn cfg st
    portfolio_value := st.totalValue }

/-- Embedding of `executeBuyOrder` (backtest-engine/index.ts:385-427): commission is the
hardcoded 0.03% of the notional; the order executes only when
`cash >= totalCost`. -/
def executeBuyOrder (cfg : BacktestConfig) (stock : StockData) (quantity : ℤ) (tradeDate : DateD) (st : EngineState) : EngineState :=
  let amount := stock.price * quantity
  let commission := amount * (3/10000)
  let totalCost := amount + commission
  if totalCost ≤ st.cash then
    { st with
      cash := st.cash - totalCost
      positions := st.positions ++ [{
        stock_code := stock.stock_code
        stock_name := stock.stock_name
        entry_date := tradeDate
        entry_price := stock.price
        quantity := quantity
        entry_amount := totalCost
        entry_reason := generateBuyReason stock
        holding_days := 0 }]
      trades := st.trades ++ [mkBuyTrade cfg stock quantity tradeDate st] }
  else st

/-- Embedding of `candidates.slice(0, n)`: a negative end index counts from the end and is
clamped at 0, as in ECMAScript. -/
def jsSliceTo {α : Type} (xs : List α) (n : ℤ) : List α :=
  xs.take (if 0 ≤ n then n.toNat else ((xs.length : ℤ) + n).toNat)

/-- The body of the `for` loop of `executeBuySignals`
(backtest-engine/index.ts:372-381): `cash` and `positions.length` are read
live; the quantity is floored to whole lots of 100; orders below one lot are
skipped. -/
def buyLoopStep (cfg : BacktestConfig) (tradeDate : DateD) (maxNewPositions : ℤ) (acc : EngineState) (stock : StockData) : EngineState :=
  let availableCash := acc.cash
  let positionValue := availableCash / ((maxNewPositions : ℚ) + (acc.positions.length : ℚ))
  let quantity := Rat.floor (positionValue / stock.price / 100) * 100
  if 100 ≤ quantity then executeBuyOrder cfg stock quantity tradeDate acc else acc

/-- Embedding of `executeBuySignals` (backtest-engine/index.ts:368-382):
`maxNewPositions` is fixed before the loop. -/
def executeBuySignals (cfg : BacktestConfig) (tradeDate : DateD) (candidates : List StockData) (st : EngineState) : EngineState :=
  let maxNewPositions : ℤ := (cfg.strategyParams.maxPositions : ℤ) - (st.positions.length : ℤ)
  let selectedStocks := jsSliceTo candidates maxNewPositions
  selectedStocks.foldl (buyLoopStep cfg tradeDate maxNewPositions) st

/-- The Σ quantity × close of `updatePortfolioValue`: a held instrument with
no bar in `dayData` contributes nothing. -/
def positionsMarkValue (dayData : List StockData) (positions : List Position) : ℚ :=
  positions.foldl (fun acc position =>
    match lookupData dayData position.stock_code with
    | some d => acc + d.price * position.quantity
    | none => acc) 0

/-- Embedding of `updatePortfolioValue` (backtest-engine/index.ts:475-487). -/
def updatePortfolioValue (dayData : List StockData) (st : EngineState) : EngineState :=
  { st with totalValue := st.cash + positionsMarkValue dayData st.positions }

/-- Embedding of `calculateDrawdown` (backtest-engine/index.ts:514-521). -/
def calculateDrawdown (st : EngineState) : ℚ :=
  if st.dailyPerformance.isEmpty then 0
  else
    let currentValue := st.totalValue
    let maxValue := (st.dailyPerformance.map (fun p => p.portfolio_value)).foldr max currentValue
    (maxValue - currentValue) / maxValue

/-- Embedding of `recordDailyPerformance` (backtest-engine/index.ts:490-506). Note the
recorded `daily_return` is `totalValue / initialCapital - 1`. -/
def recordDailyPerformance (cfg : BacktestConfig) (tradeDate : DateD) (st : EngineState) : EngineState :=
  let dailyReturn := st.totalValue / cfg.initialCapital - 1
  let cumulativeReturn := calculateCumulativeReturn cfg st
  { st with
    dailyPerformance := st.dailyPerformance ++ [{
      trade_date := tradeDate
      portfolio_value := st.totalValue
      daily_return := dailyReturn
      cumulative_return := cumulativeReturn
      benchmark_return := 0
      drawdown := calculateDrawdown st
      positions_count := st.positions.length
      cash_balance := st.cash
      market_exposure := 1 - st.cash / st.totalValue }] }

/-- One simulated trading day: its date and the instruments' bars. -/
abbrev TradingDay := DateD × List StockData

/-- Embedding of `processDay` (backtest-engine/index.ts:255-270): exits, screening,
buys, mark-to-market, snapshot, in that order. -/
def processDay (cfg : BacktestConfig) (st : EngineState) (day : TradingDay) : EngineState :=
  let st1 := checkExitSignals cfg day.1 day.2 st
  let candidates := screenStocks cfg st1.positions day.2
  let st2 := executeBuySignals cfg day.1 candidates st1
  let st3 := updatePortfolioValue day.2 st2
  recordDailyPerformance cfg day.1 st3

/-- The engine's constructor state (backtest-engine/index.ts:142-151). -/
def initialState (cfg : BacktestConfig) : EngineState :=
  { cash := cfg.initialCapital
    positions := []
    totalValue := cfg.initialCapital
    trades := []
    dailyPerformance := [] }

/-- The day loop of `runBacktest` (backtest-engine/index.ts:166-168) over an
already date-grouped, chronologically sorted list of trading days. -/
def runDays (cfg : BacktestConfig) (days : List TradingDay) : EngineState :=
  days.foldl (processDay cfg) (initialState cfg)

/-- JavaScript number values reachable in `calculateFinalMetrics`: an exact
rational, the IEEE specials, `sqrtVal q` for the (irrational) √q with
0 < q not a perfect square reachable via `Math.sqrt`, and `unrep` for finite
reals produced by operations this model does not represent exactly (none of
the claims evaluates one). -/
inductive JsNum where
  | fin (q : ℚ)
  | inf
  | ninf
  | nan
  | sqrtVal (q : ℚ)
  | unrep
deriving DecidableEq, Inhabited

/-- IEEE addition on the represented values. -/
def jsAdd : JsNum → JsNum → JsNum
  | JsNum.nan, _ => JsNum.nan
  | _, JsNum.nan => JsNum.nan
  | JsNum.fin a, JsNum.fin b => JsNum.fin (a + b)
  | JsNum.inf, JsNum.ninf => JsNum.nan
  | JsNum.ninf, JsNum.inf => JsNum.nan
  | JsNum.inf, _ => JsNum.inf
  | _, JsNum.inf => JsNum.inf
  | JsNum.ninf, _ => JsNum.ninf
  | _, JsNum.ninf => JsNum.ninf
  | _, _ => JsNum.unrep

/-- IEEE subtraction on the represented values. -/
def jsSub : JsNum → JsNum → JsNum
  | JsNum.nan, _ => JsNum.nan
  | _, JsNum.nan => JsNum.nan
  | JsNum.fin a, JsNum.fin b => JsNum.fin (a - b)
  | JsNum.inf, JsNum.inf => JsNum.nan
  | JsNum.ninf, JsNum.ninf => JsNum.nan
  | JsNum.inf, _ => JsNum.inf
  | JsNum.ninf, _ => JsNum.ninf
  | JsNum.fin _, JsNum.inf => JsNum.ninf
  | JsNum.fin _, JsNum.ninf => JsNum.inf
  | _, _ => JsNum.unrep

/-- IEEE multiplication on the represented values. -/
def jsMul : JsNum → JsNum → JsNum
  | JsNum.nan, _ => JsNum.nan
  | _, JsNum.nan => JsNum.nan
  | JsNum.fin a, JsNum.fin b => JsNum.fin (a * b)
  | JsNum.inf, JsNum.fin b => if 0 < b then JsNum.inf else if b < 0 then JsNum.ninf else JsNum.nan
  | JsNum.fin a, JsNum.inf => if 0 < a then JsNum.inf else if a < 0 then JsNum.ninf else JsNum.nan
  | JsNum.ninf, JsNum.fin b => if 0 < b then JsNum.ninf else if b < 0 then JsNum.inf else JsNum.nan
  | JsNum.fin a, JsNum.ninf => if 0 < a then JsNum.ninf else if a < 0 then JsNum.inf else JsNum.nan
  | JsNum.inf, JsNum.inf => JsNum.inf
  | JsNum.inf, JsNum.ninf => JsNum.ninf
  | JsNum.ninf, JsNum.inf => JsNum.ninf
  | JsNum.ninf, JsNum.ninf => JsNum.inf
  | _, _ => JsNum.unrep

/-- IEEE division on the represented values; `x/0` is ±∞ for x ≠ 0 and NaN
for x = 0 (all JS zeroes here are +0). -/
def jsDiv : JsNum → JsNum → JsNum
  | JsNum.nan, _ => JsNum.nan
  | _, JsNum.nan => JsNum.nan
  | JsNum.fin a, JsNum.fin b =>
    if b = 0 then (if 0 < a then JsNum.inf else if a < 0 then JsNum.ninf else JsNum.nan)
    else JsNum.fin (a / b)
  | JsNum.fin _, JsNum.inf => JsNum.fin 0
  | JsNum.fin _, JsNum.ninf => JsNum.fin 0
  | JsNum.inf, JsNum.fin b => if 0 ≤ b then JsNum.inf else JsNum.ninf
  | JsNum.ninf, JsNum.fin b => if 0 ≤ b then JsNum.ninf else JsNum.inf
  | JsNum.inf, JsNum.inf => JsNum.nan
  | JsNum.inf, JsNum.ninf => JsNum.nan
  | JsNum.ninf, JsNum.inf => JsNum.nan
  | JsNum.ninf, JsNum.ninf => JsNum.nan
  | _, _ => JsNum.unrep

/-- Model of `Math.pow` per ECMAScript on the represented values: exponent 0 gives 1;
a rational base to a non-negative integer exponent is exact; base 1 to a
finite exponent gives 1 and to an infinite exponent NaN; other finite
combinations are finite reals this model leaves unrepresented. -/
def jsPow : JsNum → JsNum → JsNum
  | _, JsNum.nan => JsNum.nan
  | b, JsNum.fin e =>
    if e = 0 then JsNum.fin 1
    else match b with
      | JsNum.fin q =>
        if e.den = 1 ∧ 0 ≤ e.num then JsNum.fin (q ^ e.num.toNat)
        else if q = 1 then JsNum.fin 1
        else JsNum.unrep
      | JsNum.nan => JsNum.nan
      | JsNum.inf => if 0 < e then JsNum.inf else JsNum.fin 0
      | _ => JsNum.unrep
  | b, JsNum.inf =>
    (match b with
    | JsNum.nan => JsNum.nan
    | JsNum.fin q => if q = 1 ∨ q = -1 then JsNum.nan else if 1 < |q| then JsNum.inf else JsNum.fin 0
    | JsNum.inf => JsNum.inf
    | _ => JsNum.unrep)
  | b, JsNum.ninf =>
    (match b with
    | JsNum.nan => JsNum.nan
    | JsNum.fin q => if q = 1 ∨ q = -1 then JsNum.nan else if 1 < |q| then JsNum.fin 0 else JsNum.inf
    | JsNum.inf => JsNum.fin 0
    | _ => JsNum.unrep)
  | _, _ => JsNum.unrep

/-- Model of `Math.sqrt` per ECMAScript on the represented values. -/
def jsSqrt : JsNum → JsNum
  | JsNum.nan => JsNum.nan
  | JsNum.inf => JsNum.inf
  | JsNum.fin q => if q < 0 then JsNum.nan else if q = 0 then JsNum.fin 0 else JsNum.sqrtVal q
  | _ => JsNum.unrep

/-- Comparison `x > 0` on the represented values (false for NaN); `sqrtVal q` is only
built by `jsSqrt` with 0 < q, where the real comparison √q > 0 is true. -/
def jsGtZero : JsNum → Bool
  | JsNum.fin q => decide (0 < q)
  | JsNum.inf => true
  | JsNum.sqrtVal q => decide (0 < q)
  | _ => false

/-- The record returned by `calculateFinalMetrics` (backtest-engine/index.ts:549-564).
`annual_return` and `sharpe_ratio` are kept as `JsNum` because their
computations can divide by zero and take irrational roots. -/
structure RunMetrics where
  final_capital : ℚ
  total_return : ℚ
  annual_return : JsNum
  max_drawdown : ℚ
  sharpe_ratio : JsNum
  win_rate : ℚ
  total_trades : ℕ
  profitable_trades : ℕ
  losing_trades : ℕ
  avg_trade_return : ℚ
  max_single_trade_loss : ℚ
  max_single_trade_profit : ℚ
deriving DecidableEq, Inhabited

/-- Embedding of `calculateFinalMetrics` (backtest-engine/index.ts:531-565). The
`(x || 0)` reads of numeric fields are the identity on numbers and on the
`undefined` buy-side `profit_loss` give 0 (`Option.getD 0`). -/
def calculateFinalMetrics (cfg : BacktestConfig) (st : EngineState) : RunMetrics :=
  let totalReturn := calculateCumulativeReturn cfg st
  let days := st.dailyPerformance.length
  let annualReturn :=
    jsSub (jsPow (JsNum.fin (1 + totalReturn)) (jsDiv (JsNum.fin 365) (JsNum.fin (days : ℚ)))) (JsNum.fin 1)
  let profitableTrades := st.trades.filter
    (fun t => t.action == TradeAction.sell && decide (0 < t.profit_loss.getD 0))
  let losingTrades := st.trades.filter
    (fun t => t.action == TradeAction.sell && decide (t.profit_loss.getD 0 < 0))
  let sellTrades := st.trades.filter (fun t => t.action == TradeAction.sell)
  let totalSellTrades := sellTrades.length
  let winRate : ℚ :=
    if 0 < totalSellTrades then (profitableTrades.length : ℚ) / (totalSellTrades : ℚ) else 0
  let maxDrawdown := (st.dailyPerformance.map (fun p => p.drawdown)).foldr max 0
  let returns := st.dailyPerformance.map (fun p => p.daily_return)
  let avgReturn := jsDiv (JsNum.fin (returns.foldl (fun sum r => sum + r) 0)) (JsNum.fin (returns.length : ℚ))
  let returnStd := jsSqrt (jsDiv
    (returns.foldl (fun s r => jsAdd s (jsPow (jsSub (JsNum.fin r) avgReturn) (JsNum.fin 2))) (JsNum.fin 0))
    (JsNum.fin (returns.length : ℚ)))
  let sharpeRatio :=
    if jsGtZero returnStd then jsMul (jsDiv avgReturn returnStd) (jsSqrt (JsNum.fin 252))
    else JsNum.fin 0
  { final_capital := st.totalValue
    total_return := totalReturn
    annual_return := annualReturn
    max_drawdown := maxDrawdown
    sharpe_ratio := sharpeRatio
    win_rate := winRate
    total_trades := totalSellTrades
    profitable_trades := profitableTrades.length
    losing_trades := losingTrades.length
    avg_trade_return :=
      if 0 < totalSellTrades then
        (sellTrades.foldl (fun sum t => sum + t.profit_loss.getD 0) 0) / (totalSellTrades : ℚ)
      else 0
    max_single_trade_loss := (st.trades.map (fun t => t.profit_loss.getD 0)).foldr min 0
    max_single_trade_profit := (st.trades.map (fun t => t.profit_loss.getD 0)).foldr max 0 }

/-! Claim-side definitions: these two follow the wording of the spec, not the
code, and exist to be compared against the code's behaviour. -/

/-- Modelled from the spec's words (the portfolio invariant): an instrument's
"current price" on a day of a run, i.e. its most recent daily close seen so
far (0 if the instrument never had a bar). -/
def lastClose (days : List TradingDay) (code : String) : ℚ :=
  days.foldl (fun acc day =>
    match lookupData day.2 code with
    | some d => d.price
    | none => acc) 0

/-- Kernel-computable lexicographic order on instrument codes (by character
code points, as string comparison orders codes). -/
def codeLtB : List Char → List Char → Bool
  | [], [] => false
  | [], _ :: _ => true
  | _ :: _, [] => false
  | a :: as, b :: bs => if a < b then true else if b < a then false else codeLtB as bs

/-- Order `s ≤ t` on instrument codes. -/
def codeLeB (s t : String) : Bool := s == t || codeLtB s.data t.data

/-- Modelled from the spec's words (Screener ordering): descending composite
score with ties broken by instrument code. -/
def claimScreenOrder (a b : StockData) : Prop :=
  calculateStockScore b < calculateStockScore a ∨
    (calculateStockScore a = calculateStockScore b ∧ codeLeB a.stock_code b.stock_code = true)

instance : DecidableRel claimScreenOrder :=
  fun a b => inferInstanceAs (Decidable (calculateStockScore b < calculateStockScore a ∨
    (calculateStockScore a = calculateStockScore b ∧ codeLeB a.stock_code b.stock_code = true)))

/-- Modelled from the spec's words: the Screener output sorted descending by
score, ties broken by instrument code. -/
def screenStocksSpec (cfg : BacktestConfig) (positions : List Position) (dayData : List StockData) : List StockData :=
  List.insertionSort claimScreenOrder (dayData.filter (passesFilters cfg.strategyParams positions))

/-! Concrete fixtures used by counterexamples and witnesses. -/

/-- Fully permissive screening thresholds. -/
def openParams : StrategyParams :=
  { maxMarketCap := 1000000
    minTurnoverRate := 0
    minVolumeRatio := 0
    minDailyGain := -100
    maxStockPrice := 10000
    chipConcentrationThreshold := 0
    profitRatioThreshold := 0
    maxPositions := 1
    stopLoss := 10
    takeProfit := 20
    holdingDaysMin := 1
    holdingDaysMax := 100 }

/-- Config with 100 000 initial capital, permissive thresholds. -/
def cfgA : BacktestConfig := { initialCapital := 100000, strategyParams := openParams }

/-- One instrument's bar at a given close and pct-change. -/
def stockA (price pct : ℚ) : StockData :=
  { stock_code := "000001", stock_name := "A", price := price, pct_chg := pct,
    turnover_rate := 5, volume_ratio := 1, market_cap := 50,
    chip_concentration := 1/2, profit_ratio := 11/20 }

/-- Two trading days: a buy at close 11, then a day on which the held
instrument has no bar at all. -/
def daysNoBar : List TradingDay :=
  [(⟨2024, 1, 4⟩, [stockA 11 2]), (⟨2024, 1, 5⟩, [])]

/-- Two trading days: a buy at close 11, then a bar at close 12 that triggers
no exit rule. -/
def daysMove : List TradingDay :=
  [(⟨2024, 1, 4⟩, [stockA 11 2]), (⟨2024, 1, 5⟩, [stockA 12 2])]

/-- The state after running `daysMove`. -/
def c7state : EngineState := runDays cfgA daysMove

/-- Config with 10 050 initial capital, permissive thresholds. -/
def cfgB : BacktestConfig := { initialCapital := 10050, strategyParams := openParams }

/-- A bar with close 1. -/
def stockB : StockData :=
  { stock_code := "000003", stock_name := "B", price := 1, pct_chg := 2,
    turnover_rate := 5, volume_ratio := 1, market_cap := 50,
    chip_concentration := 1/2, profit_ratio := 11/20 }

/-- Two bars with identical metrics (hence identical composite scores) whose
codes are listed in descending order. -/
def stockTie (code : String) : StockData :=
  { stock_code := code, stock_name := "T", price := 5, pct_chg := 3,
    turnover_rate := 6, volume_ratio := 6/5, market_cap := 50,
    chip_concentration := 1/2, profit_ratio := 11/20 }

/-- Thresholds no instrument can meet (`minDailyGain = 1000`). -/
def cfgStrict : BacktestConfig :=
  { initialCapital := 100000
    strategyParams := { openParams with minDailyGain := 1000 } }

/-- Floor of an integer cast to the rationals is that integer. -/
lemma ratFloor_intCast (z : ℤ) : Rat.floor ((z : ℚ)) = z := by
  rw [Rat.floor_def']
  simp

/-- C5: for every input, the fallback heuristic estimator's Concentration
equals 0.5 × turnover_factor × volume_factor × price_factor with
turnover_factor ∈ [0.3, 1.2], volume_factor ∈ [0.7, 1.3], price_factor one of
{0.9, 1.0, 1.1, 1.2} (selected by the pct-change bracket), and the result
clamped to [0.2, 0.95]. -/
theorem fallback_concentration_formula (pctChg turnoverRate volumeRatio : ℚ) :
    ∃ tf vf pf : ℚ,
      3/10 ≤ tf ∧ tf ≤ 12/10 ∧
      7/10 ≤ vf ∧ vf ≤ 13/10 ∧
      (pf = 9/10 ∨ pf = 1 ∨ pf = 11/10 ∨ pf = 12/10) ∧
      (generateRealisticChipMetrics pctChg turnoverRate volumeRatio).1
        = max (2/10) (min (95/100) (1/2 * tf * vf * pf)) := by
  refine ⟨max (3/10) (min (12/10) (1 - |turnoverRate - 8| / 20)),
          min (13/10) (max (7/10) (8/10 + volumeRatio / 10)),
          if 2 ≤ pctChg ∧ pctChg ≤ 8 then 11/10
            else if 9 < pctChg then 12/10
            else if pctChg < -3 then 9/10 else 1,
          ?_, ?_, ?_, ?_, ?_, ?_⟩
  · exact le_max_left _ _
  · exact max_le (by norm_num) (min_le_left _ _)
  · exact le_min (by norm_num) (le_max_left _ _)
  · exact min_le_left _ _
  · split_ifs <;> simp
  · rfl

/-- C6: for every input, both chip-metric estimators return a Concentration
in [0.1, 0.95] and a ProfitRatio in [0.05, 0.95] (the code's own clamps are
the tighter [0.2, 0.95] and [0.1, 0.9]). -/
theorem chip_metrics_bounds (pctChg turnoverRate volumeRatio : ℚ) :
    (1/10 ≤ (generateRealisticChipMetrics pctChg turnoverRate volumeRatio).1 ∧
      (generateRealisticChipMetrics pctChg turnoverRate volumeRatio).1 ≤ 95/100 ∧
      1/20 ≤ (generateRealisticChipMetrics pctChg turnoverRate volumeRatio).2 ∧
      (generateRealisticChipMetrics pctChg turnoverRate volumeRatio).2 ≤ 95/100) ∧
    (1/10 ≤ (calculateImprovedChipConcentration turnoverRate volumeRatio pctChg).1 ∧
      (calculateImprovedChipConcentration turnoverRate volumeRatio pctChg).1 ≤ 95/100 ∧
      1/20 ≤ (calculateImprovedChipConcentration turnoverRate volumeRatio pctChg).2 ∧
      (calculateImprovedChipConcentration turnoverRate volumeRatio pctChg).2 ≤ 95/100) := by
  unfold generateRealisticChipMetrics calculateImprovedChipConcentration
  dsimp only
  refine ⟨⟨?_, ?_, ?_, ?_⟩, ?_, ?_, ?_, ?_⟩
  · exact le_trans (by norm_num) (le_max_left _ _)
  · exact max_le (by norm_num) (min_le_left _ _)
  · exact le_trans (by norm_num) (le_max_left _ _)
  · exact max_le (by norm_num) ((min_le_left _ _).trans (by norm_num))
  · exact le_trans (by norm_num) (le_max_left _ _)
  · exact max_le (by norm_num) (min_le_left _ _)
  · exact le_trans (by norm_num) (le_max_left _ _)
  · exact max_le (by norm_num) ((min_le_left _ _).trans (by norm_num))

/-- C10: the elapsed holding days used by the max-holding-days exit rule are
the plain calendar-day difference between entry and current date (the
millisecond quotient is an exact integer, so the floor is the difference
itself), and hence count non-trading days: Friday 2024-01-05 to Monday
2024-01-08 counts as 3 days. -/
theorem holding_days_calendar_difference :
    (∀ entryDate currentDate : DateD,
        calculateHoldingDays entryDate currentDate
          = civilDays currentDate - civilDays entryDate) ∧
    calculateHoldingDays ⟨2024, 1, 5⟩ ⟨2024, 1, 8⟩ = 3 := by
  constructor
  · intro d1 d2
    unfold calculateHoldingDays epochMillis
    have h : ((civilDays d2 * 86400000 - civilDays d1 * 86400000 : ℤ) : ℚ) / (1000 * 60 * 60 * 24)
        = ((civilDays d2 - civilDays d1 : ℤ) : ℚ) := by
      push_cast
      field_simp
      ring
    rw [h, ratFloor_intCast]
  · decide

/-- Position held for the C3 witness: entered at 10 for 100 shares. -/
def posW : Position :=
  { stock_code := "000001", stock_name := "A", entry_date := ⟨2024, 1, 4⟩,
    entry_price := 10, quantity := 100, entry_amount := 1000,
    entry_reason := "t", holding_days := 0 }

/-- Engine state holding exactly `posW`. -/
def stW : EngineState :=
  { cash := 1000, positions := [posW], totalValue := 2250, trades := [],
    dailyPerformance := [] }

/-- C3: the exit rules are evaluated in the fixed priority order stop-loss →
take-profit → max-holding-days → technical deterioration; the first rule that
matches determines the single sell reason, and a matching position is sold at
the day's close net of the 0.03% commission, produces exactly one sell
TradeRecord carrying that reason, and is removed from the portfolio; when no
rule matches the state is unchanged. -/
theorem exit_rules_priority_and_effect
    (cfg : BacktestConfig) (currentDate : DateD) (position : Position) (d : StockData) :
    ((d.price - position.entry_price) / position.entry_price
        ≤ -cfg.strategyParams.stopLoss / 100 →
      exitReason cfg currentDate position d = some "达到止损线") ∧
    (¬((d.price - position.entry_price) / position.entry_price
        ≤ -cfg.strategyParams.stopLoss / 100) →
      cfg.strategyParams.takeProfit / 100
          ≤ (d.price - position.entry_price) / position.entry_price →
      exitReason cfg currentDate position d = some "达到止盈目标") ∧
    (¬((d.price - position.entry_price) / position.entry_price
        ≤ -cfg.strategyParams.stopLoss / 100) →
      ¬(cfg.strategyParams.takeProfit / 100
          ≤ (d.price - position.entry_price) / position.entry_price) →
      cfg.strategyParams.holdingDaysMax
          ≤ calculateHoldingDays position.entry_date currentDate →
      exitReason cfg currentDate position d = some "达到最大持仓天数") ∧
    (¬((d.price - position.entry_price) / position.entry_price
        ≤ -cfg.strategyParams.stopLoss / 100) →
      ¬(cfg.strategyParams.takeProfit / 100
          ≤ (d.price - position.entry_price) / position.entry_price) →
      ¬(cfg.strategyParams.holdingDaysMax
          ≤ calculateHoldingDays position.entry_date currentDate) →
      (d.pct_chg < -5 ∧ d.volume_ratio < 1/2) →
      exitReason cfg currentDate position d = some "技术面恶化") ∧
    (¬((d.price - position.entry_price) / position.entry_price
        ≤ -cfg.strategyParams.stopLoss / 100) →
      ¬(cfg.strategyParams.takeProfit / 100
          ≤ (d.price - position.entry_price) / position.entry_price) →
      ¬(cfg.strategyParams.holdingDaysMax
          ≤ calculateHoldingDays position.entry_date currentDate) →
      ¬(d.pct_chg < -5 ∧ d.volume_ratio < 1/2) →
      exitReason cfg currentDate position d = none) ∧
    (∀ (dayData : List StockData) (st : EngineState),
      st.positions = [position] →
      lookupData dayData position.stock_code = some d →
      ((∀ reason, exitReason cfg currentDate position d = some reason →
          (checkExitSignals cfg currentDate dayData st).positions = [] ∧
          (checkExitSignals cfg currentDate dayData st).cash
            = st.cash + d.price * (position.quantity : ℚ) * (1 - 3/10000) ∧
          (checkExitSignals cfg currentDate dayData st).trades
            = st.trades ++ [mkSellTrade cfg position d.price currentDate reason st] ∧
          (mkSellTrade cfg position d.price currentDate reason st).trade_reason = reason ∧
          (mkSellTrade cfg position d.price currentDate reason st).action = TradeAction.sell ∧
          (mkSellTrade cfg position d.price currentDate reason st).price = d.price ∧
          (mkSellTrade cfg position d.price currentDate reason st).quantity
            = position.quantity) ∧
        (exitReason cfg currentDate position d = none →
          checkExitSignals cfg currentDate dayData st = st))) := by
  have hdef : exitReason cfg currentDate position d =
      (if (d.price - position.entry_price) / position.entry_price
            ≤ -cfg.strategyParams.stopLoss / 100 then some "达到止损线"
        else if cfg.strategyParams.takeProfit / 100
            ≤ (d.price - position.entry_price) / position.entry_price then some "达到止盈目标"
        else if cfg.strategyParams.holdingDaysMax
            ≤ calculateHoldingDays position.entry_date currentDate then some "达到最大持仓天数"
        else if d.pct_chg < -5 ∧ d.volume_ratio < 1/2 then some "技术面恶化"
        else none) := rfl
  refine ⟨?_, ?_, ?_, ?_, ?_, ?_⟩
  · intro h1
    rw [hdef, if_pos h1]
  · intro h1 h2
    rw [hdef, if_neg h1, if_pos h2]
  · intro h1 h2 h3
    rw [hdef, if_neg h1, if_neg h2, if_pos h3]
  · intro h1 h2 h3 h4
    rw [hdef, if_neg h1, if_neg h2, if_neg h3, if_pos h4]
  · intro h1 h2 h3 h4
    rw [hdef, if_neg h1, if_neg h2, if_neg h3, if_neg h4]
  · intro dayData st hpos hlook
    constructor
    · intro reason hr
      have hcheck : checkExitSignals cfg currentDate dayData st
          = { executeSellOrder cfg position d.price currentDate reason st with
              positions := [] } := by
        unfold checkExitSignals
        rw [hpos]
        simp [hlook, hr]
      rw [hcheck]
      refine ⟨rfl, ?_, rfl, rfl, rfl, rfl, rfl⟩
      show (executeSellOrder cfg position d.price currentDate reason st).cash = _
      unfold executeSellOrder
      dsimp only
      ring
    · intro hnone
      have hfold : checkExitSignals cfg currentDate dayData st
          = { st with positions := [position] } := by
        unfold checkExitSignals
        rw [hpos]
        simp [hlook, hnone]
      rw [hfold, ← hpos]

/-- Witness for C3: with take-profit at 20%, a position entered at 10 and a
close of 12.5 triggers the take-profit rule (stop-loss does not match first),
the position is removed and cash is credited net of commission. -/
theorem exit_rules_priority_and_effect_witness :
    exitReason cfgA ⟨2024, 1, 5⟩ posW (stockA (25/2) 2) = some "达到止盈目标" ∧
    (checkExitSignals cfgA ⟨2024, 1, 5⟩ [stockA (25/2) 2] stW).positions = [] ∧
    (checkExitSignals cfgA ⟨2024, 1, 5⟩ [stockA (25/2) 2] stW).cash
      = stW.cash + (stockA (25/2) 2).price * (posW.quantity : ℚ) * (1 - 3/10000) := by
  have h := exit_rules_priority_and_effect cfgA ⟨2024, 1, 5⟩ posW (stockA (25/2) 2)
  have hr : exitReason cfgA ⟨2024, 1, 5⟩ posW (stockA (25/2) 2) = some "达到止盈目标" :=
    h.2.1 (by decide) (by decide)
  have he := (h.2.2.2.2.2 [stockA (25/2) 2] stW rfl (by decide)).1 _ hr
  exact ⟨hr, he.1, he.2.1⟩

/-- Lemma: `executeBuyOrder` either leaves the state unchanged or executes with
notional + 0.03% commission covered by the cash at hand. -/
lemma executeBuyOrder_cases (cfg : BacktestConfig) (stock : StockData) (quantity : ℤ)
    (tradeDate : DateD) (st : EngineState) :
    executeBuyOrder cfg stock quantity tradeDate st = st ∨
      (stock.price * (quantity : ℚ) * (10003/10000) ≤ st.cash ∧
        (executeBuyOrder cfg stock quantity tradeDate st).cash
          = st.cash - stock.price * (quantity : ℚ) * (10003/10000) ∧
        0 ≤ (executeBuyOrder cfg stock quantity tradeDate st).cash ∧
        (executeBuyOrder cfg stock quantity tradeDate st).trades
          = st.trades ++ [mkBuyTrade cfg stock quantity tradeDate st]) := by
  unfold executeBuyOrder
  dsimp only
  split_ifs with h
  · right
    have heq : stock.price * (quantity : ℚ) + stock.price * (quantity : ℚ) * (3/10000)
        = stock.price * (quantity : ℚ) * (10003/10000) := by ring
    exact ⟨heq ▸ h, by dsimp only; rw [heq], by dsimp only; exact sub_nonneg.mpr h, rfl⟩
  · exact Or.inl rfl

/-- Every trade the buy loop appends has a whole-lot quantity of at least
100 shares and is a buy. -/
lemma buyLoop_trades_spec (cfg : BacktestConfig) (tradeDate : DateD) (maxNew : ℤ) :
    ∀ (sel : List StockData) (st : EngineState) (t : TradeRecord),
      t ∈ (sel.foldl (buyLoopStep cfg tradeDate maxNew) st).trades →
      t ∈ st.trades ∨ (100 ≤ t.quantity ∧ t.quantity % 100 = 0 ∧ t.action = TradeAction.buy) := by
  intro sel
  induction sel with
  | nil => exact fun st t ht => Or.inl ht
  | cons s rest ih =>
    intro st t ht
    rw [List.foldl_cons] at ht
    rcases ih _ t ht with h | h
    · unfold buyLoopStep at h
      dsimp only at h
      split at h
      case isTrue hq =>
        rcases executeBuyOrder_cases cfg s _ tradeDate st with hc | hc
        · rw [hc] at h
          exact Or.inl h
        · rw [hc.2.2.2] at h
          rcases List.mem_append.mp h with h' | h'
          · exact Or.inl h'
          · right
            have ht' : t = mkBuyTrade cfg s _ tradeDate st := List.mem_singleton.mp h'
            subst ht'
            exact ⟨hq, Int.mul_emod_left _ _, rfl⟩
      case isFalse => exact Or.inl h
    · exact Or.inr h

/-- C2 (amended): an executed buy satisfies notional × 1.0003 ≤ cash held
immediately before the trade — the 0.03% commission is hardcoded, not a
configured rate — so cash never goes negative on a buy, and every trade the
buy loop emits is a buy of at least one whole lot of 100 shares. -/
theorem executed_buys_safety :
    (∀ (cfg : BacktestConfig) (stock : StockData) (quantity : ℤ) (tradeDate : DateD)
        (st : EngineState),
      executeBuyOrder cfg stock quantity tradeDate st = st ∨
        (stock.price * (quantity : ℚ) * (10003/10000) ≤ st.cash ∧
          (executeBuyOrder cfg stock quantity tradeDate st).cash
            = st.cash - stock.price * (quantity : ℚ) * (10003/10000) ∧
          0 ≤ (executeBuyOrder cfg stock quantity tradeDate st).cash ∧
          (executeBuyOrder cfg stock quantity tradeDate st).trades
            = st.trades ++ [mkBuyTrade cfg stock quantity tradeDate st])) ∧
    (∀ (cfg : BacktestConfig) (tradeDate : DateD) (candidates : List StockData)
        (st : EngineState) (t : TradeRecord),
      t ∈ (executeBuySignals cfg tradeDate candidates st).trades →
      t ∈ st.trades ∨ (100 ≤ t.quantity ∧ t.quantity % 100 = 0 ∧ t.action = TradeAction.buy)) := by
  refine ⟨executeBuyOrder_cases, ?_⟩
  intro cfg tradeDate candidates st t ht
  unfold executeBuySignals at ht
  exact buyLoop_trades_spec cfg tradeDate _ _ st t ht

/-- Witness for C2: on 10 050 of cash and a close of 1, the engine executes a
buy of 10 000 shares (cost 10 003 with the hardcoded commission). -/
theorem executed_buys_safety_witness :
    (executeBuySignals cfgB ⟨2024, 1, 4⟩ [stockB] (initialState cfgB)).trades.headI
        ∈ (initialState cfgB).trades ∨
      (100 ≤ (executeBuySignals cfgB ⟨2024, 1, 4⟩ [stockB] (initialState cfgB)).trades.headI.quantity ∧
        (executeBuySignals cfgB ⟨2024, 1, 4⟩ [stockB] (initialState cfgB)).trades.headI.quantity % 100 = 0 ∧
        (executeBuySignals cfgB ⟨2024, 1, 4⟩ [stockB] (initialState cfgB)).trades.headI.action
          = TradeAction.buy) :=
  executed_buys_safety.2 cfgB ⟨2024, 1, 4⟩ [stockB] (initialState cfgB) _ (by decide)

/-- Counterexample for C2 as stated: with that same run the single executed
buy has quantity × price × 1.01 = 10 100 > 10 050 = the cash immediately
before the trade, so the claimed bound at commission rate 0.01 fails (the
code's commission rate is hardcoded at 0.0003, not configurable). -/
theorem buy_commission_bound_counterexample :
    (runDays cfgB [(⟨2024, 1, 4⟩, [stockB])]).trades.length = 1 ∧
    (runDays cfgB [(⟨2024, 1, 4⟩, [stockB])]).trades.headI.action = TradeAction.buy ∧
    ¬((runDays cfgB [(⟨2024, 1, 4⟩, [stockB])]).trades.headI.price
        * ((runDays cfgB [(⟨2024, 1, 4⟩, [stockB])]).trades.headI.quantity : ℚ)
        * (101/100) ≤ cfgB.initialCapital) := by
  refine ⟨by decide, by decide, by decide⟩

/-- C4 (amended): the Screener's output contains exactly the instruments of
the day's universe that pass all hard filters, sorted in descending order of
composite score; being a stable sort of the filtered universe, ties keep the
universe's input order (they are not re-ordered by instrument code). -/
theorem screen_membership_and_sorted
    (cfg : BacktestConfig) (positions : List Position) (dayData : List StockData) :
    (∀ s : StockData, s ∈ screenStocks cfg positions dayData ↔
        s ∈ dayData ∧ passesFilters cfg.strategyParams positions s = true) ∧
    List.Sorted scoreDescOrder (screenStocks cfg positions dayData) := by
  constructor
  · intro s
    unfold screenStocks
    rw [List.mem_insertionSort]
    exact List.mem_filter
  · unfold screenStocks
    haveI ht : IsTotal StockData scoreDescOrder := ⟨fun a b => le_total _ _⟩
    haveI htr : IsTrans StockData scoreDescOrder := ⟨fun a b c hab hbc => le_trans hbc hab⟩
    exact List.sorted_insertionSort scoreDescOrder _

/-- Counterexample for C4 as stated: two instruments with identical metrics
(equal composite scores) listed with codes in descending order stay in input
order in the code's output, while the claimed tie-break by instrument code
would swap them. -/
theorem screen_tiebreak_counterexample :
    screenStocks cfgA [] [stockTie "000002", stockTie "000001"]
      ≠ screenStocksSpec cfgA [] [stockTie "000002", stockTie "000001"] := by
  decide

/-- C1 (amended): after every simulated day of any run, total_value equals
cash plus the sum over the open positions of quantity × that day's close,
where a held instrument with no bar that day contributes zero to the
valuation (it is not carried at any price). -/
theorem portfolio_value_invariant
    (cfg : BacktestConfig) (pre : List TradingDay) (day : TradingDay) :
    (runDays cfg (pre ++ [day])).totalValue
      = (runDays cfg (pre ++ [day])).cash
        + positionsMarkValue day.2 (runDays cfg (pre ++ [day])).positions := by
  unfold runDays
  rw [List.foldl_append]
  simp [processDay, updatePortfolioValue, recordDailyPerformance]

/-- Counterexample for C1 as stated: after a day on which the single held
instrument has no bar, the portfolio still holds the position but
total_value = cash, not cash + quantity × the instrument's current price
(its most recent close), so the claimed invariant fails on no-bar days. -/
theorem total_value_noBar_counterexample :
    (runDays cfgA daysNoBar).positions ≠ [] ∧
    (runDays cfgA daysNoBar).totalValue
      ≠ (runDays cfgA daysNoBar).cash
        + (runDays cfgA daysNoBar).positions.foldl
            (fun acc p => acc + lastClose daysNoBar p.stock_code * (p.quantity : ℚ)) 0 := by
  refine ⟨by decide, by decide⟩

/-- If the Screener never yields a candidate, each simulated day leaves cash,
positions, value and trades untouched, and every snapshot records the initial
capital. -/
lemma quiet_run_fold (cfg : BacktestConfig) :
    ∀ (days : List TradingDay) (st : EngineState),
      (∀ day ∈ days, screenStocks cfg [] day.2 = []) →
      st.cash = cfg.initialCapital → st.positions = [] →
      st.totalValue = cfg.initialCapital → st.trades = [] →
      (∀ perf ∈ st.dailyPerformance,
        perf.portfolio_value = cfg.initialCapital ∧ perf.cash_balance = cfg.initialCapital) →
      ((days.foldl (processDay cfg) st).cash = cfg.initialCapital ∧
        (days.foldl (processDay cfg) st).positions = [] ∧
        (days.foldl (processDay cfg) st).totalValue = cfg.initialCapital ∧
        (days.foldl (processDay cfg) st).trades = [] ∧
        ∀ perf ∈ (days.foldl (processDay cfg) st).dailyPerformance,
          perf.portfolio_value = cfg.initialCapital ∧ perf.cash_balance = cfg.initialCapital) := by
  intro days
  induction days with
  | nil =>
    intro st _ hcash hpos htv htr hperf
    exact ⟨hcash, hpos, htv, htr, hperf⟩
  | cons d rest ih =>
    intro st hscreen hcash hpos htv htr hperf
    have hd : screenStocks cfg [] d.2 = [] := hscreen d (List.mem_cons_self _ _)
    have hcheck : checkExitSignals cfg d.1 d.2 st = { st with positions := [] } := by
      unfold checkExitSignals
      rw [hpos]
      rfl
    have hbuy : executeBuySignals cfg d.1 [] { st with positions := [] }
        = { st with positions := [] } := by
      unfold executeBuySignals
      simp [jsSliceTo]
    have hup : updatePortfolioValue d.2 ({ st with positions := [] } : EngineState)
        = { st with positions := [], totalValue := st.cash + 0 } := rfl
    have hproc : processDay cfg st d
        = recordDailyPerformance cfg d.1 { st with positions := [], totalValue := st.cash + 0 } := by
      unfold processDay
      rw [hcheck]
      dsimp only
      rw [hd, hbuy, hup]
    rw [List.foldl_cons]
    apply ih
    · intro day hday
      exact hscreen day (List.mem_cons_of_mem _ hday)
    · rw [hproc]
      simpa [recordDailyPerformance] using hcash
    · rw [hproc]
      simp [recordDailyPerformance]
    · rw [hproc]
      simpa [recordDailyPerformance] using hcash
    · rw [hproc]
      simpa [recordDailyPerformance] using htr
    · rw [hproc]
      intro perf hp
      simp only [recordDailyPerformance, List.mem_append, List.mem_singleton] at hp
      rcases hp with hp | hp
      · exact hperf perf hp
      · subst hp
        exact ⟨by simpa using hcash, hcash⟩

/-- C9: if no instrument ever qualifies (the Screener returns an empty list
every day), then the run produces no trades and no positions, cash and total
value stay at the initial capital on every day's snapshot, and the final
metrics report total_trades = 0 and total_return = 0. -/
theorem no_candidates_no_trades
    (cfg : BacktestConfig) (days : List TradingDay)
    (hcap : 0 < cfg.initialCapital)
    (hscreen : ∀ day ∈ days, screenStocks cfg [] day.2 = []) :
    (runDays cfg days).trades = [] ∧
    (runDays cfg days).positions = [] ∧
    (runDays cfg days).cash = cfg.initialCapital ∧
    (runDays cfg days).totalValue = cfg.initialCapital ∧
    (∀ perf ∈ (runDays cfg days).dailyPerformance,
      perf.portfolio_value = cfg.initialCapital ∧ perf.cash_balance = cfg.initialCapital) ∧
    (calculateFinalMetrics cfg (runDays cfg days)).total_trades = 0 ∧
    (calculateFinalMetrics cfg (runDays cfg days)).total_return = 0 := by
  have h := quiet_run_fold cfg days (initialState cfg) hscreen rfl rfl rfl rfl
    (by intro p hp; simp [initialState] at hp)
  simp only [runDays] at *
  obtain ⟨hc, hp, hv, ht, hperf⟩ := h
  refine ⟨ht, hp, hc, hv, hperf, ?_, ?_⟩
  · simp [calculateFinalMetrics, ht]
  · simp [calculateFinalMetrics, calculateCumulativeReturn, hv]

/-- Witness for C9: with `minDailyGain = 1000` no instrument qualifies; a
one-day run keeps everything at the 100 000 initial capital and reports
total_trades = 0 and total_return = 0. -/
theorem no_candidates_no_trades_witness :
    (runDays cfgStrict [(⟨2024, 1, 4⟩, [stockA 11 2])]).trades = [] ∧
    (runDays cfgStrict [(⟨2024, 1, 4⟩, [stockA 11 2])]).positions = [] ∧
    (runDays cfgStrict [(⟨2024, 1, 4⟩, [stockA 11 2])]).cash = cfgStrict.initialCapital ∧
    (runDays cfgStrict [(⟨2024, 1, 4⟩, [stockA 11 2])]).totalValue = cfgStrict.initialCapital ∧
    (∀ perf ∈ (runDays cfgStrict [(⟨2024, 1, 4⟩, [stockA 11 2])]).dailyPerformance,
      perf.portfolio_value = cfgStrict.initialCapital ∧
      perf.cash_balance = cfgStrict.initialCapital) ∧
    (calculateFinalMetrics cfgStrict
      (runDays cfgStrict [(⟨2024, 1, 4⟩, [stockA 11 2])])).total_trades = 0 ∧
    (calculateFinalMetrics cfgStrict
      (runDays cfgStrict [(⟨2024, 1, 4⟩, [stockA 11 2])])).total_return = 0 :=
  no_candidates_no_trades cfgStrict [(⟨2024, 1, 4⟩, [stockA 11 2])] (by decide) (by decide)

/-- C8 (amended): on an empty trade list the trade-based ratios (win rate,
average trade P&L, extreme trade P&L) are the sentinel 0 and total_trades is
0; on a zero-length run the Sharpe ratio, max drawdown and total return are
0 as well — but the annualized return is NOT guarded: `365 / 0` is +∞ and
`Math.pow(1, +∞)` is NaN, so annual_return is NaN, not the sentinel 0. -/
theorem metrics_degenerate_guards
    (cfg : BacktestConfig) (days : List TradingDay)
    (hcap : 0 < cfg.initialCapital) :
    ((runDays cfg days).trades = [] →
      (calculateFinalMetrics cfg (runDays cfg days)).win_rate = 0 ∧
      (calculateFinalMetrics cfg (runDays cfg days)).avg_trade_return = 0 ∧
      (calculateFinalMetrics cfg (runDays cfg days)).max_single_trade_loss = 0 ∧
      (calculateFinalMetrics cfg (runDays cfg days)).max_single_trade_profit = 0 ∧
      (calculateFinalMetrics cfg (runDays cfg days)).total_trades = 0) ∧
    (days = [] →
      (calculateFinalMetrics cfg (runDays cfg days)).sharpe_ratio = JsNum.fin 0 ∧
      (calculateFinalMetrics cfg (runDays cfg days)).max_drawdown = 0 ∧
      (calculateFinalMetrics cfg (runDays cfg days)).total_return = 0 ∧
      (calculateFinalMetrics cfg (runDays cfg days)).annual_return = JsNum.nan) := by
  constructor
  · intro ht
    refine ⟨?_, ?_, ?_, ?_, ?_⟩ <;> simp [calculateFinalMetrics, ht]
  · intro hd
    subst hd
    have hrun : runDays cfg [] = initialState cfg := rfl
    rw [hrun]
    refine ⟨?_, ?_, ?_, ?_⟩
    · simp [calculateFinalMetrics, initialState, jsDiv, jsSqrt, jsGtZero]
    · simp [calculateFinalMetrics, initialState]
    · simp [calculateFinalMetrics, initialState, calculateCumulativeReturn]
    · simp [calculateFinalMetrics, initialState, calculateCumulativeReturn,
        jsDiv, jsPow, jsSub]

/-- Witness for C8: a zero-length run on 100 000 initial capital returns the
sentinel 0 for the guarded ratios and NaN for the annualized return. -/
theorem metrics_degenerate_guards_witness :
    (calculateFinalMetrics cfgA (runDays cfgA [])).win_rate = 0 ∧
    (calculateFinalMetrics cfgA (runDays cfgA [])).avg_trade_return = 0 ∧
    (calculateFinalMetrics cfgA (runDays cfgA [])).total_trades = 0 ∧
    (calculateFinalMetrics cfgA (runDays cfgA [])).sharpe_ratio = JsNum.fin 0 ∧
    (calculateFinalMetrics cfgA (runDays cfgA [])).max_drawdown = 0 ∧
    (calculateFinalMetrics cfgA (runDays cfgA [])).total_return = 0 ∧
    (calculateFinalMetrics cfgA (runDays cfgA [])).annual_return = JsNum.nan := by
  have h := metrics_degenerate_guards cfgA [] (by decide)
  have h1 := h.1 rfl
  have h2 := h.2 rfl
  exact ⟨h1.1, h1.2.1, h1.2.2.2.2, h2.1, h2.2.1, h2.2.2.1, h2.2.2.2⟩

/-- Counterexample for C8 as stated: on a zero-length run the annualized
return computation is NaN (from `Math.pow(1, 365/0) - 1`), not the claimed
sentinel 0. -/
theorem annual_return_nan_counterexample :
    (calculateFinalMetrics cfgA (runDays cfgA [])).annual_return = JsNum.nan ∧
    JsNum.nan ≠ JsNum.fin 0 := by
  exact ⟨by decide, by decide⟩

/-- C7 (code evidence): in a two-day run whose portfolio value changes on
both days, the second snapshot's recorded daily_return equals its
cumulative_return (`totalValue / initialCapital - 1`, the return since
inception) and differs from the portfolio's return over that single day
computed from the recorded portfolio values. -/
theorem daily_return_records_cumulative :
    c7state.dailyPerformance.length = 2 ∧
    (c7state.dailyPerformance.getD 1 default).daily_return
      = (c7state.dailyPerformance.getD 1 default).cumulative_return ∧
    (c7state.dailyPerformance.getD 1 default).daily_return
      = (c7state.dailyPerformance.getD 1 default).portfolio_value / cfgA.initialCapital - 1 ∧
    (c7state.dailyPerformance.getD 1 default).daily_return
      ≠ ((c7state.dailyPerformance.getD 1 default).portfolio_value
          - (c7state.dailyPerformance.getD 0 default).portfolio_value)
        / (c7state.dailyPerformance.getD 0 default).portfolio_value := by
  exact ⟨by decide, by decide, by decide, by decide⟩

end StockQuant
